import Mathlib

/-
Verification of the key-management module `tuf/keys.py`.

The module's pure data manipulation (key shapes, keyid derivation, the
metadata/storage codec, and the dispatch logic of signing and verification)
is embedded shallowly below.  External collaborators of the module that are
not part of the analysed source (`tuf.formats`, `tuf.hash`, and the backend
modules `tuf.pycrypto_keys` / `tuf.ed25519_keys`) are modelled from the
specification; each such definition carries a doc comment saying so.
-/

namespace TufKeys

/-- The keyval dictionary (tuf.formats.KEYVAL_SCHEMA): a public string and a
private string, where the empty string is the "absent private key" marker. -/
structure KeyVal where
  public : String
  «private» : String
  deriving DecidableEq

/-- Metadata-form key shape (tuf.formats.KEY_SCHEMA): keytype plus keyval.
The schema's object matching ignores undeclared dictionary keys, so external
metadata may additionally carry a stray keyid entry; it is retained here as an
optional field so that theorems can show it is never consulted. -/
structure KeyMeta where
  keytype : String
  keyval : KeyVal
  keyid : Option String
  deriving DecidableEq

/-- Storage-form key shape (tuf.formats.RSAKEY_SCHEMA / ED25519KEY_SCHEMA):
keytype, derived keyid, and the keyval dictionary. -/
structure Key where
  keytype : String
  keyid : String
  keyval : KeyVal
  deriving DecidableEq

/-- Signature dictionary (tuf.formats.SIGNATURE_SCHEMA). -/
structure Signature where
  keyid : String
  method : String
  sig : String
  deriving DecidableEq

/-- The error outcomes of `tuf/keys.py`, one constructor per distinct failure
raised by the module or reported by its collaborators.  `unsupportedKeyType`
models the TypeError raised at lines 631 and 755 for an unrecognized keytype
(the spec's UnsupportedKeyType); `invalidKeySize` models the tuf.FormatError
raised by RSAKEYBITS_SCHEMA.check_match (the spec's InvalidKeySize);
`cryptoError` models tuf.CryptoError from `_check_crypto_libraries`. -/
inductive KeysError where
  | cryptoError
  | unsupportedLibraryError
  | invalidKeySize
  | unsupportedKeyType
  | privateKeyRequired
  | unknownMethodError
  deriving DecidableEq

/-- The module-level configuration and availability snapshot of keys.py:
`tuf.conf.RSA_CRYPTO_LIBRARY`, `tuf.conf.ED25519_CRYPTO_LIBRARY` (lines
112-113) and the `_available_crypto_libraries` list built at import time
(lines 64-81). -/
structure CryptoConfig where
  RSA_CRYPTO_LIBRARY : String
  ED25519_CRYPTO_LIBRARY : String
  available_crypto_libraries : List String
  deriving DecidableEq

def _SUPPORTED_RSA_CRYPTO_LIBRARIES : List String := ["pycrypto"]

def _SUPPORTED_ED25519_CRYPTO_LIBRARIES : List String := ["ed25519", "pynacl"]

def _KEY_ID_HASH_ALGORITHM : String := "sha256"

def _DEFAULT_RSA_KEY_BITS : Int := 3072

/-- `format_keyval_to_metadata(keytype, key_value, private=False)`, lines
300-368: when `private` is requested and the keyval's private entry is a
non-empty (truthy) string, the keyval is returned as is; otherwise a
public-only keyval with the private entry cleared to the empty string is
built.  The schema checks of lines 359-362 are shape checks, guaranteed by
the types of this embedding. -/
def format_keyval_to_metadata (keytype : String) (key_value : KeyVal) ( «private» : Bool) : KeyMeta :=
  if «private» = true ∧ key_value.«private» ≠ "" then
    { keytype := keytype, keyval := key_value, keyid := none }
  else
    { keytype := keytype, keyval := { public := key_value.public, «private» := "" }, keyid := none }

/-- Modelled from the spec: `tuf.formats.encode_canonical` (not under src/),
the canonical-serialization collaborator.  Deterministic JSON rendering with
lexicographically sorted keys; string escaping is elided as no claim depends
on it. -/
def canonical_string (s : String) : String := "\"" ++ s ++ "\""

/-- Modelled from the spec: canonical rendering of a keyval dictionary, keys
in sorted order ("private" before "public"). -/
def encode_canonical_keyval (kv : KeyVal) : String :=
  "\x7b" ++ canonical_string ("private") ++ ":" ++ canonical_string kv.«private» ++ ","
    ++ canonical_string ("public") ++ ":" ++ canonical_string kv.public ++ "\x7d"

/-- Modelled from the spec: canonical rendering of a metadata-form key, keys
in sorted order ("keyid" before "keytype" before "keyval"); the stray keyid
entry is rendered when present, as canonical serialization encodes the whole
dictionary. -/
def encode_canonical (km : KeyMeta) : String :=
  "\x7b"
    ++ (match km.keyid with
        | some i => canonical_string ("keyid") ++ ":" ++ canonical_string i ++ ","
        | none => "")
    ++ canonical_string ("keytype") ++ ":" ++ canonical_string km.keytype ++ ","
    ++ canonical_string ("keyval") ++ ":" ++ encode_canonical_keyval km.keyval
    ++ "\x7d"

/-- Modelled from the spec: the SHA-256 hex digest supplied by `tuf.hash`
(not under src/).  Every claim depends only on the digest being a
deterministic function of its input, so an abstract injective stand-in is
used for the digest value. -/
def sha256_hexdigest (s : String) : String := "sha256(" ++ s ++ ")"

/-- `_get_keyid(keytype, key_value)`, lines 453-473: the keyid is the hex
digest of the canonical form of the public-only metadata shape obtained via
`format_keyval_to_metadata(keytype, key_value, private=False)`. -/
def _get_keyid (keytype : String) (key_value : KeyVal) : String :=
  sha256_hexdigest (encode_canonical (format_keyval_to_metadata keytype key_value false))

/-- `format_metadata_to_key(key_metadata)`, lines 374-447: reads keytype and
keyval from the metadata, recomputes the keyid with `_get_keyid`, and builds
the storage-form key.  The KEY_SCHEMA check of line 431 is a shape check,
guaranteed by the types of this embedding. -/
def format_metadata_to_key (key_metadata : KeyMeta) : Key :=
  let keytype := key_metadata.keytype
  let key_value := key_metadata.keyval
  let keyid := _get_keyid keytype key_value
  { keytype := keytype, keyid := keyid, keyval := key_value }

/-- The key-assembly tail shared by the generation and import paths (lines
197-212, 279-294, 848-863): the keyid is computed from a keyval whose
private entry is cleared, the private material is then attached, and the
storage-form key is returned.  The backend-produced public and private
strings (already hex- or PEM-encoded) are taken as arguments. -/
def generated_key (keytype backend_public backend_private : String) : Key :=
  let key_value : KeyVal := { public := backend_public, «private» := "" }
  let keyid := _get_keyid keytype key_value
  { keytype := keytype, keyid := keyid, keyval := { public := backend_public, «private» := backend_private } }

def hexDigitChar (n : Nat) : Char :=
  if n < 10 then Char.ofNat (48 + n) else Char.ofNat (87 + n)

/-- `binascii.hexlify`: each byte becomes two lowercase hex digits. -/
def hexlify (s : String) : String :=
  String.mk ((s.data.map (fun c => [hexDigitChar (c.toNat / 16 % 16), hexDigitChar (c.toNat % 16)])).flatten)

def hexDigitVal (c : Char) : Nat :=
  if c.toNat ≥ 97 then c.toNat - 87 else if c.toNat ≥ 65 then c.toNat - 55 else c.toNat - 48

def unhexlifyList : List Char → List Char
  | a :: b :: rest => Char.ofNat (hexDigitVal a * 16 + hexDigitVal b) :: unhexlifyList rest
  | _ => []

/-- `binascii.unhexlify`: each pair of hex digits becomes one byte. -/
def unhexlify (s : String) : String := String.mk (unhexlifyList s.data)

/-- `_check_crypto_libraries()`, lines 479-510: raises tuf.CryptoError when
the configured RSA or ed25519 library is outside the supported set or was
not imported into the availability list. -/
def _check_crypto_libraries (c : CryptoConfig) : Except KeysError Unit :=
  if c.RSA_CRYPTO_LIBRARY ∉ _SUPPORTED_RSA_CRYPTO_LIBRARIES then .error .cryptoError
  else if c.ED25519_CRYPTO_LIBRARY ∉ _SUPPORTED_ED25519_CRYPTO_LIBRARIES then .error .cryptoError
  else if c.RSA_CRYPTO_LIBRARY ∉ c.available_crypto_libraries then .error .cryptoError
  else if c.ED25519_CRYPTO_LIBRARY ∉ c.available_crypto_libraries then .error .cryptoError
  else .ok ()

/-- Modelled from the spec: `tuf.pycrypto_keys.create_rsa_signature` (not
under src/).  Signing requires the private key material and fails with the
spec's PrivateKeyRequired otherwise; the method reported is RSASSA-PSS.
The signature byte string is an abstract stand-in. -/
def pycrypto_create_rsa_signature (priv data : String) : Except KeysError (String × String) :=
  if priv = "" then .error .privateKeyRequired
  else .ok ("rsassa-pss(" ++ priv ++ "," ++ data ++ ")", "RSASSA-PSS")

/-- Modelled from the spec: `tuf.pycrypto_keys.verify_rsa_signature` (not
under src/).  An unrecognized method fails with UnknownMethodError; a
well-formed mismatch is the boolean outcome false.  The byte-level check is
an abstract stand-in. -/
def pycrypto_verify_rsa_signature (sig method public data : String) : Except KeysError Bool :=
  if method ≠ "RSASSA-PSS" then .error .unknownMethodError
  else .ok (sig == "rsassa-pss(" ++ public ++ "," ++ data ++ ")")

/-- Modelled from the spec: `tuf.ed25519_keys.create_signature` (not under
src/).  Signing requires the private key material and fails with the spec's
PrivateKeyRequired otherwise; the method reported is ed25519, and the pynacl
and pure-python implementations produce interoperable signature bytes, so the
`use_pynacl` flag does not alter the value. -/
def ed25519_keys_create_signature (pub priv data : String) (use_pynacl : Bool) :
    Except KeysError (String × String) :=
  if priv = "" then .error .privateKeyRequired
  else .ok ("ed25519(" ++ pub ++ "," ++ data ++ ")", "ed25519")

/-- Modelled from the spec: `tuf.ed25519_keys.verify_signature` (not under
src/).  An unrecognized method fails with UnknownMethodError; a well-formed
mismatch is the boolean outcome false. -/
def ed25519_keys_verify_signature (pub method sig data : String) (use_pynacl : Bool) :
    Except KeysError Bool :=
  if method ≠ "ed25519" then .error .unknownMethodError
  else .ok (sig == "ed25519(" ++ pub ++ "," ++ data ++ ")")

/-- The ed25519 backend choice made by `create_signature`, lines 621-622:
use pynacl exactly when `_ED25519_CRYPTO_LIBRARY == 'pynacl'` and pynacl is
in the availability list. -/
def create_signature_ed25519_use_pynacl (c : CryptoConfig) : Bool :=
  c.ED25519_CRYPTO_LIBRARY == "pynacl" && c.available_crypto_libraries.contains ("pynacl")

/-- The ed25519 backend choice made by `verify_signature`, lines 744-745:
the source tests `_RSA_CRYPTO_LIBRARY == 'pynacl'` (not the ed25519
configuration variable) together with pynacl availability. -/
def verify_signature_ed25519_use_pynacl (c : CryptoConfig) : Bool :=
  c.RSA_CRYPTO_LIBRARY == "pynacl" && c.available_crypto_libraries.contains ("pynacl")

/-- `create_signature(key_dict, data)`, lines 516-639: after the schema
check (a shape check, guaranteed here by types) and `_check_crypto_libraries`,
dispatch on the keytype; rsa uses the pycrypto backend when configured,
ed25519 unhexlifies the key material and picks the backend per
`create_signature_ed25519_use_pynacl`, and any other keytype raises the
TypeError of line 631.  The signature carries the input dictionary's keyid,
the backend-reported method, and the hexlified signature bytes. -/
def create_signature (c : CryptoConfig) (key_dict : Key) (data : String) :
    Except KeysError Signature :=
  match _check_crypto_libraries c with
  | .error e => .error e
  | .ok _ =>
    let keytype := key_dict.keytype
    let public := key_dict.keyval.public
    let priv := key_dict.keyval.«private»
    let keyid := key_dict.keyid
    if keytype = "rsa" then
      if c.RSA_CRYPTO_LIBRARY = "pycrypto" then
        match pycrypto_create_rsa_signature priv data with
        | .error e => .error e
        | .ok (sig, method) => .ok { keyid := keyid, method := method, sig := hexlify sig }
      else .error .unsupportedLibraryError
    else if keytype = "ed25519" then
      let pub_bytes := unhexlify public
      let priv_bytes := unhexlify priv
      if create_signature_ed25519_use_pynacl c then
        match ed25519_keys_create_signature pub_bytes priv_bytes data true with
        | .error e => .error e
        | .ok (sig, method) => .ok { keyid := keyid, method := method, sig := hexlify sig }
      else
        match ed25519_keys_create_signature pub_bytes priv_bytes data false with
        | .error e => .error e
        | .ok (sig, method) => .ok { keyid := keyid, method := method, sig := hexlify sig }
    else .error .unsupportedKeyType

/-- `verify_signature(key_dict, signature, data)`, lines 645-757: after the
schema checks (shape checks, guaranteed here by types) the signature bytes
are unhexlified and dispatch proceeds on the keytype; rsa uses the pycrypto
backend when configured, ed25519 unhexlifies the public material and picks
the backend per `verify_signature_ed25519_use_pynacl` (the source's
RSA-variable test of line 744), and any other keytype raises the TypeError
of line 755.  Unlike `create_signature`, no `_check_crypto_libraries` call
is made. -/
def verify_signature (c : CryptoConfig) (key_dict : Key) (signature : Signature)
    (data : String) : Except KeysError Bool :=
  let method := signature.method
  let sig := unhexlify signature.sig
  let public := key_dict.keyval.public
  let keytype := key_dict.keytype
  if keytype = "rsa" then
    if c.RSA_CRYPTO_LIBRARY = "pycrypto" then
      pycrypto_verify_rsa_signature sig method public data
    else .error .unsupportedLibraryError
  else if keytype = "ed25519" then
    let pub_bytes := unhexlify public
    if verify_signature_ed25519_use_pynacl c then
      ed25519_keys_verify_signature pub_bytes method sig data true
    else
      ed25519_keys_verify_signature pub_bytes method sig data false
  else .error .unsupportedKeyType

/-- Modelled from the spec: `tuf.formats.RSAKEYBITS_SCHEMA.check_match` (not
under src/), which `generate_rsa_key` calls first (line 174).  Per the spec,
the bit length must be an integer of at least 2048 and a multiple of 256,
rejected with InvalidKeySize otherwise, independent of any backend minimum. -/
def RSAKEYBITS_SCHEMA_matches (bits : Int) : Bool :=
  2048 ≤ bits && bits % 256 == 0

/-- `generate_rsa_key(bits)`, lines 116-212: check the bit length, check the
configured libraries, then obtain a PEM pair from the pycrypto backend and
assemble the storage-form key via the shared generation tail.  The
backend-produced PEM strings are taken as arguments. -/
def generate_rsa_key (c : CryptoConfig) (backend_public backend_private : String)
    (bits : Int) : Except KeysError Key :=
  if RSAKEYBITS_SCHEMA_matches bits = false then .error .invalidKeySize
  else
    match _check_crypto_libraries c with
    | .error e => .error e
    | .ok _ =>
      if c.RSA_CRYPTO_LIBRARY = "pycrypto" then
        .ok (generated_key ("rsa") backend_public backend_private)
      else .error .unsupportedLibraryError

/-- `generate_rsa_key` with the `bits` argument left unspecified, which
Python defaults to `_DEFAULT_RSA_KEY_BITS` (line 116). -/
def generate_rsa_key_default (c : CryptoConfig) (backend_public backend_private : String) :
    Except KeysError Key :=
  generate_rsa_key c backend_public backend_private _DEFAULT_RSA_KEY_BITS

/-- A valid configuration snapshot used by concrete witnesses: pycrypto
configured for RSA, pynacl configured for ed25519, and all three libraries
imported. -/
def cfgOK : CryptoConfig :=
  { RSA_CRYPTO_LIBRARY := "pycrypto", ED25519_CRYPTO_LIBRARY := "pynacl",
    available_crypto_libraries := ["ed25519", "pycrypto", "pynacl"] }

/-- A key with an unsupported keytype, used by concrete witnesses. -/
def dsaKey : Key :=
  { keytype := "dsa", keyid := "id0", keyval := { public := "p", «private» := "s" } }

/-- An RSA storage-form key whose stored keyid is deliberately unrelated to
its key material, used by concrete witnesses. -/
def staleRsaKey : Key :=
  { keytype := "rsa", keyid := "staleid", keyval := { public := "PUB", «private» := "PRIV" } }

/-- A signature dictionary used by concrete witnesses. -/
def sigW : Signature := { keyid := "id0", method := "m", sig := "00" }

theorem unhexlify_empty : unhexlify "" = "" := rfl

theorem check_ok_rsa_library (c : CryptoConfig) (h : _check_crypto_libraries c = .ok ()) :
    c.RSA_CRYPTO_LIBRARY = "pycrypto" := by
  by_contra hne
  have hmem : c.RSA_CRYPTO_LIBRARY ∉ _SUPPORTED_RSA_CRYPTO_LIBRARIES := by
    simp [_SUPPORTED_RSA_CRYPTO_LIBRARIES, hne]
  unfold _check_crypto_libraries at h
  rw [if_pos hmem] at h
  cases h

/-- C1: for every keytype and every two keyval dictionaries whose public
fields are equal, `_get_keyid` returns the same keyid regardless of what the
private field holds: the private key material never influences the derived
key identity. -/
theorem keyid_independent_of_private (keytype : String) (kv1 kv2 : KeyVal)
    (h : kv1.public = kv2.public) :
    _get_keyid keytype kv1 = _get_keyid keytype kv2 := by
  simp [_get_keyid, format_keyval_to_metadata, h]

theorem keyid_independent_of_private_witness :
    ({ public := "p", «private» := "secret" } : KeyVal).public
      = ({ public := "p", «private» := "" } : KeyVal).public
  ∧ _get_keyid ("ed25519") { public := "p", «private» := "secret" }
      = _get_keyid ("ed25519") { public := "p", «private» := "" } :=
  ⟨rfl, keyid_independent_of_private ("ed25519")
    { public := "p", «private» := "secret" } { public := "p", «private» := "" } rfl⟩

/-- C2: for every generated key (assembled by the shared generation tail
`generated_key`) with non-empty private material, converting it to metadata
form with private included and back yields the very same key: same keytype,
same public and private values, and a recomputed keyid equal to the original
keyid. -/
theorem generated_key_roundtrip (kt pub priv : String) (h : priv ≠ "") :
    format_metadata_to_key
      (format_keyval_to_metadata (generated_key kt pub priv).keytype
        (generated_key kt pub priv).keyval true)
      = generated_key kt pub priv := by
  simp [generated_key, format_metadata_to_key, format_keyval_to_metadata, _get_keyid, h]

theorem generated_key_roundtrip_witness :
    ("s" : String) ≠ ""
  ∧ format_metadata_to_key
      (format_keyval_to_metadata (generated_key ("rsa") ("p") ("s")).keytype
        (generated_key ("rsa") ("p") ("s")).keyval true)
      = generated_key ("rsa") ("p") ("s") :=
  ⟨by decide, generated_key_roundtrip ("rsa") ("p") ("s") (by decide)⟩

/-- C3: for every metadata-form key, `format_metadata_to_key` sets the
returned keyid to the value freshly recomputed by `_get_keyid` from the
metadata's keytype and keyval; in particular a stray keyid entry carried by
the metadata dictionary (the optional `keyid` field, which ranges over all
values here) is never copied into the result. -/
theorem format_metadata_to_key_recomputes_keyid (key_metadata : KeyMeta) :
    (format_metadata_to_key key_metadata).keyid
      = _get_keyid key_metadata.keytype key_metadata.keyval := by
  simp [format_metadata_to_key]

/-- C8: `format_keyval_to_metadata` with private not requested always clears
the private entry of the returned keyval to the empty marker, even when the
input keyval holds non-empty private material. -/
theorem public_export_strips_private (keytype : String) (kv : KeyVal) :
    (format_keyval_to_metadata keytype kv false).keyval.«private» = "" := by
  simp [format_keyval_to_metadata]

/-- C9: when the keyval's private entry is the empty string,
`format_keyval_to_metadata` with private requested returns exactly the
public-only shape that private-not-requested returns: an empty-string
private is treated as absent. -/
theorem empty_private_export_like_public (keytype : String) (kv : KeyVal)
    (h : kv.«private» = "") :
    format_keyval_to_metadata keytype kv true = format_keyval_to_metadata keytype kv false := by
  simp [format_keyval_to_metadata, h]

theorem empty_private_export_like_public_witness :
    ({ public := "p", «private» := "" } : KeyVal).«private» = ""
  ∧ format_keyval_to_metadata ("rsa") { public := "p", «private» := "" } true
      = format_keyval_to_metadata ("rsa") { public := "p", «private» := "" } false :=
  ⟨rfl, empty_private_export_like_public ("rsa") { public := "p", «private» := "" } rfl⟩

/-- C4: the ed25519 backend choice is NOT identical between the two call
sites.  At the valid configuration cfgOK (pycrypto configured for RSA,
pynacl configured for ed25519, every library available) `create_signature`
selects the accelerated pynacl backend while `verify_signature` selects the
pure-python one, because the verify path of line 744 tests the RSA
configuration variable instead of the ed25519 one. -/
theorem ed25519_backend_selection_mismatch :
    _check_crypto_libraries cfgOK = .ok ()
  ∧ create_signature_ed25519_use_pynacl cfgOK = true
  ∧ verify_signature_ed25519_use_pynacl cfgOK = false :=
  ⟨rfl, rfl, rfl⟩

/-- C5: for every key whose private entry is the empty marker, under a valid
library configuration and a supported keytype, `create_signature` fails with
the PrivateKeyRequired error of the backend signing routines. -/
theorem create_signature_empty_private_fails (c : CryptoConfig) (key : Key)
    (data : String) (hok : _check_crypto_libraries c = .ok ())
    (hkt : key.keytype = "rsa" ∨ key.keytype = "ed25519")
    (hpriv : key.keyval.«private» = "") :
    create_signature c key data = .error .privateKeyRequired := by
  have hrsa : c.RSA_CRYPTO_LIBRARY = "pycrypto" := check_ok_rsa_library c hok
  unfold create_signature
  rw [hok]
  rcases hkt with h | h
  · simp [h, hrsa, hpriv, pycrypto_create_rsa_signature]
  · simp [h, hpriv, unhexlify_empty, ed25519_keys_create_signature]

theorem create_signature_empty_private_fails_witness :
    _check_crypto_libraries cfgOK = .ok ()
  ∧ create_signature cfgOK
      { keytype := "ed25519", keyid := "id1", keyval := { public := "ab", «private» := "" } }
      ("msg") = .error .privateKeyRequired :=
  ⟨rfl,
    create_signature_empty_private_fails cfgOK
      { keytype := "ed25519", keyid := "id1", keyval := { public := "ab", «private» := "" } }
      ("msg") rfl (Or.inr rfl) rfl⟩

/-- C6: for every key whose keytype is neither rsa nor ed25519, under a valid
library configuration `create_signature` and `verify_signature` both fail
with the UnsupportedKeyType error (the TypeErrors of lines 631 and 755);
verify_signature in particular returns an error, never the boolean false. -/
theorem unknown_keytype_rejected (c : CryptoConfig) (key : Key)
    (signature : Signature) (data : String)
    (hok : _check_crypto_libraries c = .ok ())
    (h1 : key.keytype ≠ "rsa") (h2 : key.keytype ≠ "ed25519") :
    create_signature c key data = .error .unsupportedKeyType
  ∧ verify_signature c key signature data = .error .unsupportedKeyType := by
  constructor
  · unfold create_signature
    rw [hok]
    simp [h1, h2]
  · unfold verify_signature
    simp [h1, h2]

theorem unknown_keytype_rejected_witness :
    _check_crypto_libraries cfgOK = .ok ()
  ∧ dsaKey.keytype ≠ "rsa" ∧ dsaKey.keytype ≠ "ed25519"
  ∧ (create_signature cfgOK dsaKey ("d") = .error .unsupportedKeyType
     ∧ verify_signature cfgOK dsaKey sigW ("d") = .error .unsupportedKeyType) :=
  ⟨rfl, by decide, by decide,
    unknown_keytype_rejected cfgOK dsaKey sigW ("d") rfl (by decide) (by decide)⟩

/-- C7: `generate_rsa_key` rejects every bit length below 2048 or not a
multiple of 256 with the InvalidKeySize error, before the configuration or
the backend output is even consulted; with a valid configuration it succeeds
for 2048 and 3072 bits; and the unspecified-bits default is 3072. -/
theorem generate_rsa_key_size_policy :
    (∀ (c : CryptoConfig) (pub priv : String) (bits : Int),
        bits < 2048 ∨ bits % 256 ≠ 0 →
        generate_rsa_key c pub priv bits = .error .invalidKeySize)
  ∧ (∀ (c : CryptoConfig) (pub priv : String),
        _check_crypto_libraries c = .ok () →
        (∃ k, generate_rsa_key c pub priv 2048 = .ok k)
      ∧ (∃ k, generate_rsa_key c pub priv 3072 = .ok k))
  ∧ _DEFAULT_RSA_KEY_BITS = 3072
  ∧ (∀ (c : CryptoConfig) (pub priv : String),
        generate_rsa_key_default c pub priv = generate_rsa_key c pub priv 3072) := by
  refine ⟨?_, ?_, rfl, fun c pub priv => rfl⟩
  · intro c pub priv bits hbits
    have hm : RSAKEYBITS_SCHEMA_matches bits = false := by
      simp only [RSAKEYBITS_SCHEMA_matches, Bool.and_eq_false_iff]
      simp only [decide_eq_false_iff_not, beq_eq_false_iff_ne, ne_eq]
      omega
    unfold generate_rsa_key
    rw [if_pos hm]
  · intro c pub priv hok
    have hrsa : c.RSA_CRYPTO_LIBRARY = "pycrypto" := check_ok_rsa_library c hok
    constructor
    · refine ⟨generated_key ("rsa") pub priv, ?_⟩
      simp [generate_rsa_key, RSAKEYBITS_SCHEMA_matches, hok, hrsa]
    · refine ⟨generated_key ("rsa") pub priv, ?_⟩
      simp [generate_rsa_key, RSAKEYBITS_SCHEMA_matches, hok, hrsa]

theorem generate_rsa_key_size_policy_witness :
    generate_rsa_key cfgOK ("PUB") ("PRIV") 1024 = .error .invalidKeySize
  ∧ (∃ k, generate_rsa_key cfgOK ("PUB") ("PRIV") 2048 = .ok k)
  ∧ (∃ k, generate_rsa_key cfgOK ("PUB") ("PRIV") 3072 = .ok k)
  ∧ generate_rsa_key_default cfgOK ("PUB") ("PRIV") = generate_rsa_key cfgOK ("PUB") ("PRIV") 3072 :=
  ⟨generate_rsa_key_size_policy.1 cfgOK ("PUB") ("PRIV") 1024 (by omega),
    (generate_rsa_key_size_policy.2.1 cfgOK ("PUB") ("PRIV") rfl).1,
    (generate_rsa_key_size_policy.2.1 cfgOK ("PUB") ("PRIV") rfl).2,
    generate_rsa_key_size_policy.2.2.2 cfgOK ("PUB") ("PRIV")⟩

/-- C10: whenever `create_signature` succeeds, the keyid of the returned
signature is the keyid field of the input key dictionary, copied verbatim
(line 635); it is never recomputed from the key material nor checked against
it. -/
theorem signature_keyid_copied (c : CryptoConfig) (key : Key) (data : String)
    (s : Signature) (h : create_signature c key data = .ok s) :
    s.keyid = key.keyid := by
  unfold create_signature at h
  split at h
  · cases h
  · dsimp only at h
    repeat' split at h
    all_goals (try cases h)
    all_goals rfl

theorem signature_keyid_copied_witness :
    create_signature cfgOK staleRsaKey ("m")
      = .ok { keyid := "staleid", method := "RSASSA-PSS",
              sig := "7273617373612d70737328505249562c6d29" }
  ∧ ({ keyid := "staleid", method := "RSASSA-PSS",
       sig := "7273617373612d70737328505249562c6d29" } : Signature).keyid
      = staleRsaKey.keyid :=
  ⟨rfl,
    signature_keyid_copied cfgOK staleRsaKey ("m")
      { keyid := "staleid", method := "RSASSA-PSS",
        sig := "7273617373612d70737328505249562c6d29" } rfl⟩

end TufKeys
